import Mathlib

/-!
Shallow embedding of the WSI DeepZoom viewer backend (`app.py`): the
conversion endpoint, the progress tracker, the tile/descriptor cache
contract, the tile-serving endpoint and the delete endpoint, together
with the parts of the converter module that the spec describes.

State that lives on disk (upload folder, tile cache, descriptor files)
and in memory (the global `conversion_progress` dict) is made explicit;
endpoint handlers become pure functions from state to (response, state,
scheduled background tasks).  Python statuses are kept as the string
literals used by `app.py`.
-/

namespace DeepZoomApp

/-- One value of the global `conversion_progress` dict of `app.py`
(lines 72-81): a progress percentage and a status string.  Percentages
are modelled exactly as rationals. -/
structure ProgressEntry where
  progress : ℚ
  status : String
  deriving DecidableEq

/-- Address of one cached tile file
`cache/{slide}_files/{level}/{col}_{row}.{format}` (app.py lines 415-425). -/
structure TileKey where
  slide : String
  level : Nat
  col : Nat
  row : Nat
  fmt : String
  deriving DecidableEq

/-- The on-disk cache directory: which slides have a committed DZI
descriptor, and which tile files exist (with their byte content,
modelled as a list of naturals). -/
structure CacheState where
  descriptors : List String
  tiles : List (TileKey × List Nat)
  deriving DecidableEq

/-- Membership of a string in a list, by structural recursion. -/
def strMem (s : String) : List String → Bool
  | [] => false
  | x :: rest => if x = s then true else strMem s rest

/-- Lookup in the tile store by exact tile key. -/
def tileLookup (k : TileKey) : List (TileKey × List Nat) → Option (List Nat)
  | [] => none
  | t :: rest => if t.1 = k then some t.2 else tileLookup k rest

/-- First tile entry belonging to a given slide exists. -/
def anyTileOf (s : String) : List (TileKey × List Nat) → Bool
  | [] => false
  | t :: rest => if t.1.slide = s then true else anyTileOf s rest

/-- Remove a slide's descriptor entry. -/
def removeStr (s : String) : List String → List String
  | [] => []
  | x :: rest => if x = s then removeStr s rest else x :: removeStr s rest

/-- Remove every tile entry belonging to a slide. -/
def removeTiles (s : String) : List (TileKey × List Nat) → List (TileKey × List Nat)
  | [] => []
  | t :: rest => if t.1.slide = s then removeTiles s rest else t :: removeTiles s rest

/-- Modelled from the spec: `converter.is_converted` lives in the
converter module, which is absent from the sources; per §4.4 and §3 the
descriptor's existence is the authoritative "is converted" predicate. -/
def is_converted (c : CacheState) (slide_name : String) : Bool :=
  strMem slide_name c.descriptors

/-- Modelled from the spec: `converter.is_viewable` lives in the absent
converter module; per §4.5 it is the Tile Cache `hasAny` check — true
when at least one tile file exists for the slide. -/
def is_viewable (c : CacheState) (slide_name : String) : Bool :=
  anyTileOf slide_name c.tiles

/-- Modelled from the spec: `converter.cleanup_cache` lives in the
absent converter module; per §4.5 `invalidate(slideId)` recursively
removes every tile and the descriptor for that slide. -/
def cleanup_cache (c : CacheState) (slide_name : String) : CacheState :=
  { descriptors := removeStr slide_name c.descriptors,
    tiles := removeTiles slide_name c.tiles }

/-- Whole observable server state: filenames in the upload folder, the
cache directory, and the in-memory `conversion_progress` dict (app.py
line 73), modelled as an association list. -/
structure AppState where
  uploads : List String
  cache : CacheState
  conversion_progress : List (String × ProgressEntry)
  deriving DecidableEq

/-- Python dict lookup `m[k]` / `k in m` on the progress map. -/
def dictLookup (k : String) : List (String × ProgressEntry) → Option ProgressEntry
  | [] => none
  | e :: rest => if e.1 = k then some e.2 else dictLookup k rest

/-- Python dict assignment `m[k] = v` on the progress map. -/
def dictInsert (k : String) (v : ProgressEntry) :
    List (String × ProgressEntry) → List (String × ProgressEntry)
  | [] => [(k, v)]
  | e :: rest => if e.1 = k then (k, v) :: rest else e :: dictInsert k v rest

/-- `update_progress` (app.py lines 75-81):
`percentage = (current / total) * 100` and the entry is stored with
status `'converting'` below 100 and `'complete'` at or above it.
Python's `/` raises `ZeroDivisionError` when `total == 0`, so the
embedding returns `Except`: `.error` models the raised exception (no
entry is published in that case). -/
def update_progress (slide_name : String) (current total : ℚ)
    (m : List (String × ProgressEntry)) :
    Except String (List (String × ProgressEntry)) :=
  if total = 0 then .error "ZeroDivisionError"
  else
    let percentage := (current / total) * 100
    .ok (dictInsert slide_name
      { progress := percentage,
        status := if percentage < 100 then "converting" else "complete" } m)

/-- One character list is a prefix of another. -/
def charsPrefix : List Char → List Char → Bool
  | [], _ => true
  | _ :: _, [] => false
  | a :: as, b :: bs => if a = b then charsPrefix as bs else false

/-- A filename matches the glob pattern `f"{slide_name}.*"` used by
`app.py` (lines 313, 438): it starts with the slide name followed by a
dot (the slide name itself is taken literally). -/
def nameMatchesGlob (slide_name f : String) : Bool :=
  charsPrefix (slide_name.data ++ ['.']) f.data

/-- `upload_dir.glob(f"{slide_name}.*")` (app.py lines 313, 438):
the files in the upload folder whose name starts with the slide name
followed by a dot. -/
def globMatches (slide_name : String) : List String → List String
  | [] => []
  | f :: rest =>
    if nameMatchesGlob slide_name f then f :: globMatches slide_name rest
    else globMatches slide_name rest

/-- `slide_file.unlink()` over every glob match (app.py lines 444-445):
the upload folder after deleting the matching files. -/
def removeMatching (slide_name : String) : List String → List String
  | [] => []
  | f :: rest =>
    if nameMatchesGlob slide_name f then removeMatching slide_name rest
    else f :: removeMatching slide_name rest

/-- JSON body returned by `convert_slide` (app.py lines 322-327 and
346-351). -/
structure ConvertResponse where
  success : Bool
  message : String
  dzi_url : String
  status : String
  deriving DecidableEq

/-- One task handed to FastAPI `background_tasks.add_task` by
`convert_slide` (app.py lines 340-344): run
`converter.convert_to_deepzoom` on this path, reporting progress for
this slide name.  Tasks execute only after the response is returned. -/
structure BgTask where
  slide_path : String
  slide_name : String
  deriving DecidableEq

deriving instance DecidableEq for Except

/-- Result of one call to the `convert_slide` endpoint: the HTTP
response (`.error 404` for the raised `HTTPException`), the state after
the handler ran, and the background tasks it scheduled. -/
structure ConvertOutcome where
  response : Except Nat ConvertResponse
  state : AppState
  tasks : List BgTask
  deriving DecidableEq

/-- `convert_slide` endpoint (app.py lines 307-356).  Globs the upload
folder; 404 when nothing matches; short-circuits with status
`'complete'` when `converter.is_converted` holds; otherwise overwrites
`conversion_progress[slide_name]` with `{'progress': 0, 'status':
'starting'}`, schedules the background conversion of `slide_files[0]`,
and answers with status `'converting'`. -/
def convert_slide (st : AppState) (slide_name : String) : ConvertOutcome :=
  match globMatches slide_name st.uploads with
  | [] => { response := .error 404, state := st, tasks := [] }
  | slide_path :: _ =>
    if is_converted st.cache slide_name then
      { response := .ok { success := true, message := "Slide already converted",
                          dzi_url := "/api/dzi/" ++ slide_name ++ ".dzi",
                          status := "complete" },
        state := st, tasks := [] }
    else
      let tracked := dictInsert slide_name { progress := 0, status := "starting" }
        st.conversion_progress
      { response := .ok { success := true, message := "Conversion started",
                          dzi_url := "/api/dzi/" ++ slide_name ++ ".dzi",
                          status := "converting" },
        state := { st with conversion_progress := tracked },
        tasks := [{ slide_path := slide_path, slide_name := slide_name }] }

/-- `get_progress` endpoint (app.py lines 359-374): the in-memory entry
when present; otherwise 100/complete when converted on disk, then
50/converting when viewable, then 0/idle. -/
def get_progress (st : AppState) (slide_name : String) : ProgressEntry :=
  match dictLookup slide_name st.conversion_progress with
  | some p => p
  | none =>
    if is_converted st.cache slide_name then { progress := 100, status := "complete" }
    else if is_viewable st.cache slide_name then { progress := 50, status := "converting" }
    else { progress := 0, status := "idle" }

/-- Response of the tile endpoint: a `FileResponse` with the file's
bytes and its `media_type`, or a raised `HTTPException` status code. -/
inductive TileResponse where
  | file (bytes : List Nat) (media_type : String)
  | httpError (code : Nat)
  deriving DecidableEq

/-- `serve_tile` endpoint (app.py lines 415-430): looks up
`cache/{slide}_files/{level}/{col}_{row}.{format}`; 404 when the file
does not exist, otherwise the file with media type `image/{format}`. -/
def serve_tile (c : CacheState) (slide_name : String)
    (level col row : Nat) (format : String) : TileResponse :=
  let tile_path : TileKey := { slide := slide_name, level := level, col := col,
                               row := row, fmt := format }
  match tileLookup tile_path c.tiles with
  | some b => .file b ("image/" ++ format)
  | none => .httpError 404

/-- Result of one call to the `delete_slide` endpoint: the response
(`.error 404` for the raised `HTTPException`, `.ok` with the success
message) and the state after the handler ran. -/
structure DeleteOutcome where
  response : Except Nat String
  state : AppState
  deriving DecidableEq

/-- `delete_slide` endpoint (app.py lines 433-455): 404 when no upload
matches the glob, leaving everything untouched; otherwise unlinks each
matching file, calls `converter.cleanup_cache`, and reports success.
The in-memory `conversion_progress` dict is not touched. -/
def delete_slide (st : AppState) (slide_name : String) : DeleteOutcome :=
  match globMatches slide_name st.uploads with
  | [] => { response := .error 404, state := st }
  | _ :: _ =>
    { response := .ok "Slide deleted",
      state := { uploads := removeMatching slide_name st.uploads
                 cache := cleanup_cache st.cache slide_name
                 conversion_progress := st.conversion_progress } }

/-- Ceiling division on naturals, `ceil(a / b)` for positive `b`. -/
def ceilDiv (a b : Nat) : Nat := (a + b - 1) / b

/-- Iterated ceiling halving: the width of a pyramid level `n` steps
coarser than one of width `w`. -/
def ceilHalfIter (w : Nat) : Nat → Nat
  | 0 => w
  | n + 1 => (ceilHalfIter w n + 1) / 2

/-- Ceiling base-2 logarithm, executably: the least `k ≤ n` with
`n ≤ 2 ^ k` (for `n ≥ 1` this is `ceil(log2 n)`). -/
def clog2 (n : Nat) : Nat :=
  (List.range (n + 1)).findIdx (fun k => decide (n ≤ 2 ^ k))

/-- Modelled from the spec: the Pyramid Planner lives in the absent
converter module; per §4.1 the finest level index is
`ceil(log2(max(width, height)))` (level count is that plus one). -/
def maxLevel (w h : Nat) : Nat := clog2 (max w h)

/-- Modelled from the spec: per §3 and §4.1 a tile key is in range for
a slide of dimensions `w × h` when its level is at most the finest
level and `col < ceil(levelWidth / tileSize)`,
`row < ceil(levelHeight / tileSize)` at that level. -/
def tileInRange (w h tileSize level col row : Nat) : Bool :=
  decide (level ≤ maxLevel w h) &&
  decide (col < ceilDiv (ceilHalfIter w (maxLevel w h - level)) tileSize) &&
  decide (row < ceilDiv (ceilHalfIter h (maxLevel w h - level)) tileSize)

/-- Dimension table for slides: slide name to (width, height). -/
def dimsLookup (s : String) : List (String × Nat × Nat) → Option (Nat × Nat)
  | [] => none
  | d :: rest => if d.1 = s then some d.2 else dimsLookup s rest

/-- Modelled from the spec: per §4.2 and §4.3 the Tile Generator (in
the absent converter module) writes a tile only for in-range keys of
the computed plan, so a well-formed cache holds only tiles whose key is
in range for their slide's dimensions. -/
def tilesWellFormed (dims : List (String × Nat × Nat)) (tileSize : Nat) :
    List (TileKey × List Nat) → Bool
  | [] => true
  | t :: rest =>
    (match dimsLookup t.1.slide dims with
     | some wh => tileInRange wh.1 wh.2 tileSize t.1.level t.1.col t.1.row
     | none => false) && tilesWellFormed dims tileSize rest

/-! Helper lemmas about the state operations. -/

theorem dictLookup_dictInsert (k : String) (v : ProgressEntry)
    (m : List (String × ProgressEntry)) :
    dictLookup k (dictInsert k v m) = some v := by
  induction m with
  | nil => simp [dictInsert, dictLookup]
  | cons e rest ih =>
    by_cases h : e.1 = k
    · simp [dictInsert, dictLookup, h]
    · simp [dictInsert, dictLookup, h, ih]

theorem strMem_removeStr (s : String) (l : List String) :
    strMem s (removeStr s l) = false := by
  induction l with
  | nil => rfl
  | cons x rest ih =>
    by_cases h : x = s
    · simp [removeStr, h, ih]
    · simp [removeStr, strMem, h, ih]

theorem anyTileOf_removeTiles (s : String) (l : List (TileKey × List Nat)) :
    anyTileOf s (removeTiles s l) = false := by
  induction l with
  | nil => rfl
  | cons t rest ih =>
    by_cases h : t.1.slide = s
    · simp [removeTiles, h, ih]
    · simp [removeTiles, anyTileOf, h, ih]

theorem tileLookup_eq_none_of_wf (dims : List (String × Nat × Nat)) (ts : Nat)
    (tiles : List (TileKey × List Nat)) (hwf : tilesWellFormed dims ts tiles = true)
    (k : TileKey) (w h : Nat) (hd : dimsLookup k.slide dims = some (w, h))
    (hr : tileInRange w h ts k.level k.col k.row = false) :
    tileLookup k tiles = none := by
  induction tiles with
  | nil => rfl
  | cons t rest ih =>
    simp only [tilesWellFormed, Bool.and_eq_true] at hwf
    obtain ⟨h1, h2⟩ := hwf
    by_cases hk : t.1 = k
    · exfalso
      rw [hk, hd] at h1
      simp only at h1
      rw [h1] at hr
      simp at hr
    · simpa [tileLookup, hk] using ih h2

/-! Theorems settling the specification claims. -/

/-- C2: for every slide whose descriptor already exists and whose
source file is present in the upload folder, the conversion request
schedules no background task, leaves the state unchanged, and reports
status complete. -/
theorem convert_slide_already_converted_short_circuit (st : AppState) (s : String)
    (hfile : globMatches s st.uploads ≠ [])
    (hconv : is_converted st.cache s = true) :
    (convert_slide st s).tasks = [] ∧
    (convert_slide st s).state = st ∧
    ∃ r, (convert_slide st s).response = .ok r ∧ r.status = "complete" := by
  cases hg : globMatches s st.uploads with
  | nil => exact absurd hg hfile
  | cons p rest =>
    refine ⟨by simp [convert_slide, hg, hconv], by simp [convert_slide, hg, hconv],
      ⟨{ success := true, message := "Slide already converted",
         dzi_url := "/api/dzi/" ++ s ++ ".dzi", status := "complete" },
       by simp [convert_slide, hg, hconv], rfl⟩⟩

/-- Witness for C2 at a concrete state: slide `a` uploaded as `a.svs`
with its descriptor already committed. -/
def stC2 : AppState :=
  { uploads := ["a.svs"],
    cache := { descriptors := ["a"], tiles := [] },
    conversion_progress := [] }

theorem convert_slide_already_converted_witness :
    (convert_slide stC2 "a").tasks = [] ∧
    (convert_slide stC2 "a").state = stC2 ∧
    ∃ r, (convert_slide stC2 "a").response = .ok r ∧ r.status = "complete" :=
  convert_slide_already_converted_short_circuit stC2 "a" (by decide) (by decide)

/-- C3: for every slide absent from the in-memory progress map, the
progress query reports 100/complete when the descriptor exists,
otherwise 50/converting when at least one cached tile exists, and
otherwise 0/idle. -/
theorem get_progress_untracked_cases (st : AppState) (s : String)
    (habsent : dictLookup s st.conversion_progress = none) :
    (is_converted st.cache s = true →
      get_progress st s = { progress := 100, status := "complete" }) ∧
    (is_converted st.cache s = false → is_viewable st.cache s = true →
      get_progress st s = { progress := 50, status := "converting" }) ∧
    (is_converted st.cache s = false → is_viewable st.cache s = false →
      get_progress st s = { progress := 0, status := "idle" }) := by
  refine ⟨fun h1 => ?_, fun h1 h2 => ?_, fun h1 h2 => ?_⟩
  · simp [get_progress, habsent, h1]
  · simp [get_progress, habsent, h1, h2]
  · simp [get_progress, habsent, h1, h2]

/-- Witness for C3 at a concrete state: slide `b` has one cached tile
but no descriptor and no in-memory entry. -/
def stC3 : AppState :=
  { uploads := ["b.svs"],
    cache := { descriptors := [],
               tiles := [({ slide := "b", level := 0, col := 0, row := 0,
                            fmt := "jpeg" }, [7])] },
    conversion_progress := [] }

theorem get_progress_untracked_witness :
    (is_converted stC3.cache "b" = true →
      get_progress stC3 "b" = { progress := 100, status := "complete" }) ∧
    (is_converted stC3.cache "b" = false → is_viewable stC3.cache "b" = true →
      get_progress stC3 "b" = { progress := 50, status := "converting" }) ∧
    (is_converted stC3.cache "b" = false → is_viewable stC3.cache "b" = false →
      get_progress stC3 "b" = { progress := 0, status := "idle" }) :=
  get_progress_untracked_cases stC3 "b" (by decide)

/-- C9: `update_progress` divides by `total` without a guard; invoked
with `total = 0` it raises `ZeroDivisionError` instead of publishing a
progress entry. -/
theorem update_progress_zero_total_error (s : String) (current : ℚ)
    (m : List (String × ProgressEntry)) :
    update_progress s current 0 m = .error "ZeroDivisionError" := by
  simp [update_progress]

/-- State refuting C5 as stated: slide `a`'s descriptor exists while
the in-memory map still holds a stale 50/converting entry. -/
def stC5 : AppState :=
  { uploads := ["a.svs"],
    cache := { descriptors := ["a"], tiles := [] },
    conversion_progress := [("a", { progress := 50, status := "converting" })] }

/-- C5 counterexample: at `stC5` the descriptor exists, yet the
progress query returns the in-memory 50/converting entry rather than
complete — the map is trusted over the descriptor. -/
theorem get_progress_map_over_descriptor_cex :
    is_converted stC5.cache "a" = true ∧
    get_progress stC5 "a" = { progress := 50, status := "converting" } ∧
    get_progress stC5 "a" ≠ { progress := 100, status := "complete" } := by
  decide

/-- C5 (amended): for every slide absent from the in-memory map whose
descriptor exists, the progress query reports 100/complete; when the
slide has an in-memory entry, that entry is reported instead — the map
takes precedence over the descriptor. -/
theorem get_progress_descriptor_untracked (st : AppState) (s : String) :
    (dictLookup s st.conversion_progress = none → is_converted st.cache s = true →
      get_progress st s = { progress := 100, status := "complete" }) ∧
    (∀ p, dictLookup s st.conversion_progress = some p → get_progress st s = p) := by
  constructor
  · intro h1 h2
    simp [get_progress, h1, h2]
  · intro p hp
    simp [get_progress, hp]

theorem get_progress_descriptor_untracked_witness :
    get_progress stC2 "a" = { progress := 100, status := "complete" } ∧
    get_progress stC5 "a" = { progress := 50, status := "converting" } :=
  ⟨(get_progress_descriptor_untracked stC2 "a").1 rfl rfl,
   (get_progress_descriptor_untracked stC5 "a").2
     { progress := 50, status := "converting" } rfl⟩

/-- C6: during a run with a nonzero total, the published percentage is
exactly `100 × current / total` and the published status is
`converting` while that percentage is below 100. -/
theorem update_progress_formula (s : String) (current total : ℚ)
    (m : List (String × ProgressEntry)) (htot : total ≠ 0) :
    ∃ m', update_progress s current total m = .ok m' ∧
      ∃ e, dictLookup s m' = some e ∧
        e.progress = 100 * current / total ∧
        (e.progress < 100 → e.status = "converting") := by
  have hprog : (current / total) * 100 = 100 * current / total := by ring
  refine ⟨dictInsert s
      { progress := (current / total) * 100,
        status := if (current / total) * 100 < 100 then "converting" else "complete" } m,
    ?_, ?_⟩
  · simp [update_progress, htot]
  · refine ⟨_, dictLookup_dictInsert s _ m, hprog, fun hlt => ?_⟩
    have hlt2 : (current / total) * 100 < 100 := hlt
    show (if (current / total) * 100 < 100 then "converting" else "complete") = "converting"
    rw [if_pos hlt2]

theorem update_progress_formula_witness :
    ∃ m', update_progress "a" 3 4 [] = .ok m' ∧
      ∃ e, dictLookup "a" m' = some e ∧
        e.progress = 100 * 3 / 4 ∧
        (e.progress < 100 → e.status = "converting") :=
  update_progress_formula "a" 3 4 [] (by norm_num)

/-- State refuting C4 as stated: slide `a` is uploaded, fully
converted, and still tracked in the in-memory map as 100/complete. -/
def stC4 : AppState :=
  { uploads := ["a.svs"],
    cache := { descriptors := ["a"],
               tiles := [({ slide := "a", level := 0, col := 0, row := 0,
                            fmt := "jpeg" }, [1])] },
    conversion_progress := [("a", { progress := 100, status := "complete" })] }

/-- C4 counterexample: deleting `a` from `stC4` succeeds and empties
the cache, but the progress query still answers from the uncleared
in-memory map, not idle. -/
theorem delete_slide_stale_progress_cex :
    (delete_slide stC4 "a").response = .ok "Slide deleted" ∧
    is_converted (delete_slide stC4 "a").state.cache "a" = false ∧
    is_viewable (delete_slide stC4 "a").state.cache "a" = false ∧
    get_progress (delete_slide stC4 "a").state "a" ≠
      { progress := 0, status := "idle" } := by
  decide

/-- C4 (amended): after a successful delete the descriptor is absent
and `hasAny` is false, and the progress query reports 0/idle provided
the slide has no entry in the in-memory progress map, which the delete
endpoint does not clear. -/
theorem delete_slide_invalidate_amended (st : AppState) (s : String)
    (hfile : globMatches s st.uploads ≠ [])
    (habsent : dictLookup s st.conversion_progress = none) :
    (delete_slide st s).response = .ok "Slide deleted" ∧
    is_converted (delete_slide st s).state.cache s = false ∧
    is_viewable (delete_slide st s).state.cache s = false ∧
    get_progress (delete_slide st s).state s = { progress := 0, status := "idle" } := by
  cases hg : globMatches s st.uploads with
  | nil => exact absurd hg hfile
  | cons p rest =>
    refine ⟨by simp [delete_slide, hg], ?_, ?_, ?_⟩
    · simp [delete_slide, hg, is_converted, cleanup_cache, strMem_removeStr]
    · simp [delete_slide, hg, is_viewable, cleanup_cache, anyTileOf_removeTiles]
    · simp [delete_slide, hg, get_progress, habsent, is_converted, is_viewable,
        cleanup_cache, strMem_removeStr, anyTileOf_removeTiles]

/-- Witness state for the amended C4: converted slide `a`, no
in-memory entry. -/
def stC4w : AppState :=
  { uploads := ["a.svs"],
    cache := { descriptors := ["a"],
               tiles := [({ slide := "a", level := 0, col := 0, row := 0,
                            fmt := "jpeg" }, [1])] },
    conversion_progress := [] }

theorem delete_slide_invalidate_witness :
    (delete_slide stC4w "a").response = .ok "Slide deleted" ∧
    is_converted (delete_slide stC4w "a").state.cache "a" = false ∧
    is_viewable (delete_slide stC4w "a").state.cache "a" = false ∧
    get_progress (delete_slide stC4w "a").state "a" =
      { progress := 0, status := "idle" } :=
  delete_slide_invalidate_amended stC4w "a" (by decide) (by decide)

/-- C10: when no upload matches the slide name, the delete endpoint
answers 404 and the state — uploads, cached tiles and descriptors —
is left exactly unchanged; file deletion and cache cleanup happen only
when at least one upload matches. -/
theorem delete_slide_not_found_no_cleanup (st : AppState) (s : String)
    (hnone : globMatches s st.uploads = []) :
    (delete_slide st s).response = .error 404 ∧ (delete_slide st s).state = st := by
  constructor <;> simp [delete_slide, hnone]

/-- Witness state for C10: only an unrelated slide `b.svs` uploaded. -/
def stC10 : AppState :=
  { uploads := ["b.svs"],
    cache := { descriptors := ["c"], tiles := [] },
    conversion_progress := [] }

theorem delete_slide_not_found_witness :
    (delete_slide stC10 "a").response = .error 404 ∧
    (delete_slide stC10 "a").state = stC10 :=
  delete_slide_not_found_no_cleanup stC10 "a" (by decide)

/-- State refuting C1 as stated: a conversion of slide `a` is tracked
in-flight at 50/converting, the slide is uploaded, no descriptor yet. -/
def stC1 : AppState :=
  { uploads := ["a.svs"],
    cache := { descriptors := [], tiles := [] },
    conversion_progress := [("a", { progress := 50, status := "converting" })] }

/-- C1 counterexample: with slide `a` in-flight at 50/converting, a
further conversion request is not a no-op — it resets the recorded
progress to 0/starting and schedules another background conversion
task. -/
theorem convert_slide_inflight_not_noop :
    dictLookup "a" stC1.conversion_progress =
      some { progress := 50, status := "converting" } ∧
    dictLookup "a" (convert_slide stC1 "a").state.conversion_progress =
      some { progress := 0, status := "starting" } ∧
    (convert_slide stC1 "a").tasks ≠ [] := by
  decide

/-- C1 (amended): for every slide with an in-flight job (status
starting or converting), a matching upload and no descriptor, a
further conversion request overwrites the recorded progress with
0/starting and schedules one more executing background conversion —
there is no at-most-one-in-flight check. -/
theorem convert_slide_inflight_resets (st : AppState) (s : String)
    (hfile : globMatches s st.uploads ≠ [])
    (hconv : is_converted st.cache s = false)
    (_hjob : ∃ p, dictLookup s st.conversion_progress = some p ∧
      (p.status = "starting" ∨ p.status = "converting")) :
    dictLookup s (convert_slide st s).state.conversion_progress =
      some { progress := 0, status := "starting" } ∧
    (convert_slide st s).tasks.length = 1 := by
  cases hg : globMatches s st.uploads with
  | nil => exact absurd hg hfile
  | cons p rest =>
    constructor
    · simp [convert_slide, hg, hconv, dictLookup_dictInsert]
    · simp [convert_slide, hg, hconv]

theorem convert_slide_inflight_resets_witness :
    dictLookup "a" (convert_slide stC1 "a").state.conversion_progress =
      some { progress := 0, status := "starting" } ∧
    (convert_slide stC1 "a").tasks.length = 1 :=
  convert_slide_inflight_resets stC1 "a" (by decide) (by decide)
    ⟨{ progress := 50, status := "converting" }, rfl, Or.inr rfl⟩

/-- Fresh slide `a`: uploaded, no descriptor, nothing tracked. -/
def stC7 : AppState :=
  { uploads := ["a.svs"],
    cache := { descriptors := [], tiles := [] },
    conversion_progress := [] }

/-- C7 counterexample: triggering conversion of the fresh slide `a`
records the new job as 0/starting, yet the response body carries
status converting — the response does not report the job's recorded
state. -/
theorem convert_slide_response_status_cex :
    dictLookup "a" (convert_slide stC7 "a").state.conversion_progress =
      some { progress := 0, status := "starting" } ∧
    (convert_slide stC7 "a").response = .ok
      { success := true, message := "Conversion started",
        dzi_url := "/api/dzi/a.dzi", status := "converting" } := by
  decide

/-- C7 (amended): a conversion trigger for an existing,
not-yet-converted slide returns with the work dispatched as exactly
one background task (run only after the response is sent); the newly
created job is recorded as 0/starting, but the response body reports
status converting rather than the job's recorded state. -/
theorem convert_slide_start_background (st : AppState) (s : String)
    (hfile : globMatches s st.uploads ≠ [])
    (hconv : is_converted st.cache s = false) :
    (∃ r, (convert_slide st s).response = .ok r ∧ r.status = "converting") ∧
    dictLookup s (convert_slide st s).state.conversion_progress =
      some { progress := 0, status := "starting" } ∧
    (convert_slide st s).tasks.length = 1 := by
  cases hg : globMatches s st.uploads with
  | nil => exact absurd hg hfile
  | cons p rest =>
    refine ⟨⟨{ success := true, message := "Conversion started",
               dzi_url := "/api/dzi/" ++ s ++ ".dzi", status := "converting" },
             by simp [convert_slide, hg, hconv], rfl⟩, ?_, ?_⟩
    · simp [convert_slide, hg, hconv, dictLookup_dictInsert]
    · simp [convert_slide, hg, hconv]

theorem convert_slide_start_background_witness :
    (∃ r, (convert_slide stC7 "a").response = .ok r ∧ r.status = "converting") ∧
    dictLookup "a" (convert_slide stC7 "a").state.conversion_progress =
      some { progress := 0, status := "starting" } ∧
    (convert_slide stC7 "a").tasks.length = 1 :=
  convert_slide_start_background stC7 "a" (by decide) (by decide)

/-- C8: tile serving returns exactly the cached tile's bytes with
content type `image/<format>` when the tile file exists, and 404 when
it does not — in particular, under a well-formed cache, whenever the
coordinates are out of range for the slide's plan; no partial or
placeholder bytes are ever substituted. -/
theorem serve_tile_contract (dims : List (String × Nat × Nat)) (ts : Nat)
    (c : CacheState) (s : String) (level col row : Nat) (fmt : String)
    (hwf : tilesWellFormed dims ts c.tiles = true) :
    (∀ b, tileLookup { slide := s, level := level, col := col, row := row,
                       fmt := fmt } c.tiles = some b →
      serve_tile c s level col row fmt = .file b ("image/" ++ fmt)) ∧
    (tileLookup { slide := s, level := level, col := col, row := row,
                  fmt := fmt } c.tiles = none →
      serve_tile c s level col row fmt = .httpError 404) ∧
    (∀ w h, dimsLookup s dims = some (w, h) →
      tileInRange w h ts level col row = false →
      serve_tile c s level col row fmt = .httpError 404) := by
  refine ⟨fun b hb => ?_, fun hn => ?_, fun w h hd hr => ?_⟩
  · simp [serve_tile, hb]
  · simp [serve_tile, hn]
  · have hnone := tileLookup_eq_none_of_wf dims ts c.tiles hwf
      { slide := s, level := level, col := col, row := row, fmt := fmt } w h hd hr
    simp [serve_tile, hnone]

/-- Dimension table and cache for the C8 witness: slide `a` is
100 × 80, tile size 254, finest level `clog2 100 = 7` with a 1 × 1
grid; the single in-range tile `(7, 0, 0)` is cached. -/
def dims8 : List (String × Nat × Nat) := [("a", (100, 80))]

def c8 : CacheState :=
  { descriptors := ["a"],
    tiles := [({ slide := "a", level := 7, col := 0, row := 0,
                 fmt := "jpeg" }, [9, 9])] }

set_option maxRecDepth 4096 in
theorem serve_tile_contract_witness :
    serve_tile c8 "a" 7 0 0 "jpeg" = .file [9, 9] ("image/" ++ "jpeg") ∧
    serve_tile c8 "a" 7 1 0 "jpeg" = .httpError 404 :=
  ⟨(serve_tile_contract dims8 254 c8 "a" 7 0 0 "jpeg" (by decide)).1 [9, 9] (by decide),
   (serve_tile_contract dims8 254 c8 "a" 7 1 0 "jpeg" (by decide)).2.2 100 80
     (by decide) (by decide)⟩

end DeepZoomApp
